import Mathlib

/-!
Verification of the parsl bash-app executor layer, the remote channel error
taxonomy, and the dataflow task record, embedded shallowly from:
  - parsl/app/bash.py        (remote_side_bash_executor, BashApp)
  - libsubmit/channels/errors.py (ChannelError hierarchy)
  - parsl/dataflow/taskrecord.py (TaskRecord)
-/

namespace Parsl

/-- A Python value, as far as the bash executor layer inspects it:
a string (a command line), the value `None`, or anything else
(identified by a tag so distinct non-string values can be told apart). -/
inductive PyVal where
  | str (s : String)
  | pyNone
  | other (tag : String)
deriving DecidableEq, Repr

/-- The class of an exception raised while composing the command line
(`func(*args, **kwargs)` and the `isinstance` check in bash.py lines 40-45).
`AttributeError` and `IndexError` are handled specially by the code;
`ValueError` is what the `isinstance` check raises; anything else is
carried by name. -/
inductive ExcKind where
  | attributeError
  | indexError
  | valueError
  | otherExc (name : String)
deriving DecidableEq, Repr

/-- Outcome of calling the supplied callable `func(*args, **kwargs)`
(bash.py line 42): it either returns a Python value or raises. -/
inductive ComposeOutcome where
  | returns (v : PyVal)
  | raises (k : ExcKind)
deriving DecidableEq, Repr

/-- A declared output artifact (a `File` object): the executor only reads
its `filepath` (bash.py line 117). -/
structure OutputFile where
  filepath : String
deriving DecidableEq, Repr

/-- A fault raised (or value returned) by `remote_side_bash_executor`.
Each constructor is one of the `parsl.app.errors` exception classes the
function can raise, carrying the data the source attaches to it, plus
`ok` for normal return and `reraised` for exceptions the except-clauses
re-raise unchanged (bash.py lines 55-57). -/
inductive BashResult where
  | ok (returncode : Int)
  | appBadFormatting
  | bashAppNoReturn
  | reraised (k : ExcKind)
  | badStdStreamFile
  | appTimeout (walltime : Option Nat)
  | appException
  | bashExitFailure (func_name : String) (returncode : Int)
  | missingOutputs (missing : List OutputFile)
deriving DecidableEq, Repr

/-- The except-clause dispatch of bash.py lines 47-57: given the local
variable `executable` at handler entry (initialised to `None` on line 37)
and the class of the exception caught, decide the fault.  `AttributeError`
with `executable is not None` gives `AppBadFormatting`, `AttributeError`
with `executable` still `None` gives `BashAppNoReturn`, `IndexError` gives
`AppBadFormatting`, and any other exception is re-raised unchanged. -/
def composeExcHandler (executable : PyVal) (k : ExcKind) : BashResult :=
  match k with
  | .attributeError =>
      if executable ≠ PyVal.pyNone then .appBadFormatting else .bashAppNoReturn
  | .indexError => .appBadFormatting
  | k => .reraised k

/-- The whole try-statement of bash.py lines 40-57: run the callable; if it
returns a non-string (including `None`) the `isinstance` check raises
`ValueError` with `executable` already assigned; if the callable itself
raises, `executable` is still `None`.  Returns the command line on success,
or the dispatched fault. -/
def composeStep (compose : ComposeOutcome) : Except BashResult String :=
  match compose with
  | .returns (.str s) => .ok s
  | .returns v => .error (composeExcHandler v .valueError)
  | .raises k => .error (composeExcHandler PyVal.pyNone k)

/-- The keyword arguments `remote_side_bash_executor` inspects:
`kwargs.get('walltime')` (line 83) and `kwargs.get('outputs', [])`
(line 116). -/
structure Kwargs where
  walltime : Option Nat := none
  outputs : List OutputFile := []
deriving DecidableEq, Repr

/-- The external environment one invocation runs against: whether opening
the stdout/stderr redirection files raises (lines 63-81), whether
`Popen`/`wait` raises something other than `TimeoutExpired` (line 103),
how long the launched process runs and with what exit code (lines 92-96),
and which paths exist on disk for the output check (line 119). -/
structure Env where
  stdoutOpenFails : Bool := false
  stderrOpenFails : Bool := false
  procRaises : Bool := false
  procDuration : Nat := 0
  procReturncode : Int := 0
  existingPaths : List String := []
deriving DecidableEq, Repr

/-- `remote_side_bash_executor` (bash.py lines 10-128): compose the command
line, open the redirection streams, launch the process with
`proc.wait(timeout=kwargs.get('walltime'))`, map `TimeoutExpired` to
`AppTimeout` and other launch exceptions to `AppException`, raise
`BashExitFailure` on a non-zero exit code, raise `MissingOutputs` when a
declared output artifact is absent, and otherwise return the return code. -/
def remote_side_bash_executor (func_name : String) (compose : ComposeOutcome)
    (kwargs : Kwargs) (env : Env) : BashResult :=
  match composeStep compose with
  | .error f => f
  | .ok _executable =>
    if env.stdoutOpenFails then .badStdStreamFile
    else if env.stderrOpenFails then .badStdStreamFile
    else if env.procRaises then .appException
    else
      -- timeout = kwargs.get('walltime'); proc.wait(timeout=timeout):
      -- with timeout None the wait never raises TimeoutExpired.
      let timeout := kwargs.walltime
      let timedOut : Bool := match timeout with
        | some t => decide (t < env.procDuration)
        | none => false
      if timedOut then .appTimeout timeout
      else if env.procReturncode ≠ 0 then .bashExitFailure func_name env.procReturncode
      else
        let missing := kwargs.outputs.filter (fun o => !(env.existingPaths.contains o.filepath))
        if missing ≠ [] then .missingOutputs missing
        else .ok env.procReturncode

/-! ### BashApp (bash.py lines 131-183) -/

/-- A Python keyword dictionary, as an association list with unique keys in
insertion order. -/
abbrev KwDict := List (String × PyVal)

/-- Dictionary lookup: the first pair with the given key. -/
def dictGet (d : KwDict) (k : String) : Option PyVal :=
  match d with
  | [] => none
  | (k', v) :: rest => if k' = k then some v else dictGet rest k

/-- `d.update(d2)` as used on bash.py lines 167-169: entries of `d2`
replace entries of `d` with the same key; entries of `d` whose key is not
in `d2` are kept. -/
def dictUpdate (d d2 : KwDict) : KwDict :=
  d.filter (fun p => (dictGet d2 p.1).isNone) ++ d2

/-- One parameter of the callable's signature: its name and, when the
declaration gives one (`default is not Parameter.empty`), its default. -/
structure Param where
  name : String
  default : Option PyVal
deriving DecidableEq, Repr

/-- The callable's signature, in declaration order. -/
abbrev Signature := List Param

/-- The default-extraction loop of bash.py lines 140-144: for each
signature parameter whose default is not `Parameter.empty`, record
`name ↦ default` in `self.kwargs`. -/
def paramDefaults (sig : Signature) : KwDict :=
  sig.filterMap (fun p => p.default.map (fun d => (p.name, d)))

/-- A `BashApp` object after `__init__` (bash.py lines 133-152): the
attributes stored by `AppBase.__init__` (`cache`, `executors`,
`ignore_for_cache`) plus the `kwargs` dict of parameter defaults.
`executors` and `ignore_for_cache` are carried opaquely. -/
structure BashApp where
  func_name : String
  cache : Bool
  executors : PyVal
  ignore_for_cache : Option (List String)
  kwargs : KwDict
deriving DecidableEq, Repr

/-- `BashApp.__init__` (bash.py lines 133-152): store the caller-facing
options and capture the signature's parameter defaults into
`self.kwargs`. -/
def BashApp_init (func_name : String) (sig : Signature) (cache : Bool)
    (executors : PyVal) (ignore_for_cache : Option (List String)) : BashApp :=
  { func_name := func_name
    cache := cache
    executors := executors
    ignore_for_cache := ignore_for_cache
    kwargs := paramDefaults sig }

/-- The arguments `BashApp.__call__` hands to `dfk.submit` (bash.py
lines 176-181). -/
structure Submission where
  app_args : List PyVal
  executors : PyVal
  cache : Bool
  ignore_for_cache : Option (List String)
  app_kwargs : KwDict
deriving DecidableEq, Repr

/-- `BashApp.__call__` (bash.py lines 154-183): build `invocation_kwargs`
as the stored parameter defaults updated with the call-time kwargs, then
return the future produced by the selected data flow kernel's `submit`
(the kernel chosen on lines 171-174 is passed in as the `submit`
operation). -/
def BashApp_call {F : Type} (app : BashApp) (submit : Submission → F)
    (args : List PyVal) (kwargs : KwDict) : F :=
  let invocation_kwargs := dictUpdate app.kwargs kwargs
  submit { app_args := args
           executors := app.executors
           cache := app.cache
           ignore_for_cache := app.ignore_for_cache
           app_kwargs := invocation_kwargs }

/-! ### Channel errors (libsubmit/channels/errors.py) -/

/-- The five failure categories defined below `ChannelError` in
libsubmit/channels/errors.py. -/
inductive ChannelErrorKind where
  | badHostKey
  | badScriptPath
  | badPermsScriptPath
  | auth
  | ssh
deriving DecidableEq, Repr

/-- An underlying cause object (in the source, a paramiko exception),
carried opaquely. -/
structure Cause where
  descr : String
deriving DecidableEq, Repr

/-- An instance of one of the `ChannelError` subclasses: which class it
is, and the `reason`, `hostname` and `e` attributes every subclass's
`__init__` sets. -/
structure ChannelError where
  kind : ChannelErrorKind
  reason : String
  hostname : String
  e : Cause
deriving DecidableEq, Repr

/-- `BadHostKeyException.__init__` (errors.py lines 15-29). -/
def BadHostKeyException (e : Cause) (hostname : String) : ChannelError :=
  { kind := .badHostKey
    reason := "SSH channel could not be created since server's host keys could not be verified"
    hostname := hostname
    e := e }

/-- `BadScriptPath.__init__` (errors.py lines 31-44). -/
def BadScriptPath (e : Cause) (hostname : String) : ChannelError :=
  { kind := .badScriptPath
    reason := "Inaccessible remote script dir. Specify script_dir"
    hostname := hostname
    e := e }

/-- `BadPermsScriptPath.__init__` (errors.py lines 46-59). -/
def BadPermsScriptPath (e : Cause) (hostname : String) : ChannelError :=
  { kind := .badPermsScriptPath
    reason := "User does not have permissions to access the script_dir"
    hostname := hostname
    e := e }

/-- `AuthException.__init__` (errors.py lines 62-75). -/
def AuthException (e : Cause) (hostname : String) : ChannelError :=
  { kind := .auth
    reason := "Authentication to remote server failed"
    hostname := hostname
    e := e }

/-- `SSHException.__init__` (errors.py lines 77-90). -/
def SSHException (e : Cause) (hostname : String) : ChannelError :=
  { kind := .ssh
    reason := "Error connecting or establishing an SSH session"
    hostname := hostname
    e := e }

/-! ### TaskRecord (parsl/dataflow/taskrecord.py) -/

/-- Modelled from the spec: `parsl.dataflow.states.States` is imported by
taskrecord.py but its module is not under src/; §3 of the spec lists the
task statuses. -/
inductive States where
  | unscheduled
  | pending
  | launched
  | running
  | exec_done
  | failed
  | dependency_failed
  | retrying
  | memo_done
  | joining
  | done
deriving DecidableEq, Repr

/-- A `threading.Lock` object, identified opaquely. -/
structure ThreadingLock where
  uid : Nat
deriving DecidableEq, Repr

/-- A `datetime.datetime` value, carried opaquely. -/
structure DateTime where
  ticks : Int
deriving DecidableEq, Repr

/-- A `concurrent.futures.Future`, identified opaquely. -/
structure PyFuture where
  uid : Nat
deriving DecidableEq, Repr

/-- A `parsl.dataflow.futures.AppFuture`, identified opaquely. -/
structure AppFuture where
  uid : Nat
deriving DecidableEq, Repr

/-- The `TaskRecord` TypedDict (taskrecord.py lines 16-47), one field per
declared key with the declared type. -/
structure TaskRecord where
  func_name : String
  status : States
  depends : Option (List PyVal)
  app_fu : AppFuture
  exec_fu : Option PyFuture
  callback : Unit
  executor : String
  fail_count : Int
  fail_history : List PyVal
  checkpoint : Bool
  hashsum : String
  task_launch_lock : ThreadingLock
  func : PyVal
  fn_hash : PyVal
  args : List PyVal
  kwargs : KwDict
  time_submitted : Option DateTime
  time_returned : Option DateTime
  memoize : Bool
  id : Int
deriving DecidableEq, Repr

/-! ## Theorems -/

/-- A key present in the updating dict is looked up from there after
`dictUpdate`. -/
theorem dictGet_dictUpdate_right (d d2 : KwDict) (k : String) (v : PyVal)
    (h : dictGet d2 k = some v) : dictGet (dictUpdate d d2) k = some v := by
  induction d with
  | nil => simpa [dictUpdate, dictGet]
  | cons p rest ih =>
    obtain ⟨k', v'⟩ := p
    by_cases hk : k' = k
    · subst hk
      simpa [dictUpdate, List.filter_cons, h] using ih
    · by_cases hb : (dictGet d2 k').isNone <;>
        simpa [dictUpdate, List.filter_cons, hb, dictGet, hk] using ih

/-- A key absent from the updating dict keeps its original binding after
`dictUpdate`. -/
theorem dictGet_dictUpdate_left (d d2 : KwDict) (k : String)
    (h : dictGet d2 k = none) : dictGet (dictUpdate d d2) k = dictGet d k := by
  induction d with
  | nil => simp [dictUpdate, dictGet, h]
  | cons p rest ih =>
    obtain ⟨k', v'⟩ := p
    by_cases hk : k' = k
    · subst hk
      simp [dictUpdate, List.filter_cons, h, dictGet]
    · by_cases hb : (dictGet d2 k').isNone <;>
        simpa [dictUpdate, List.filter_cons, hb, dictGet, hk] using ih

/-- C2 counterexample: a callable that returns `None` does not surface
`BashAppNoReturn`; the `isinstance` check's `ValueError` is re-raised
unchanged by the generic except-clause. -/
theorem returns_none_not_bashAppNoReturn :
    remote_side_bash_executor "app" (.returns PyVal.pyNone) {} {} ≠ .bashAppNoReturn ∧
    remote_side_bash_executor "app" (.returns PyVal.pyNone) {} {} = .reraised .valueError := by
  exact ⟨by decide, rfl⟩

/-- C2 (amended): `BashAppNoReturn` is surfaced exactly on the
`AttributeError`-with-no-command path of composition; a callable that
returns `None` instead triggers a `ValueError` that is re-raised
unchanged. -/
theorem bashAppNoReturn_on_attributeError (fn : String) (kwargs : Kwargs) (env : Env) :
    remote_side_bash_executor fn (.raises .attributeError) kwargs env = .bashAppNoReturn ∧
    remote_side_bash_executor fn (.returns PyVal.pyNone) kwargs env = .reraised .valueError :=
  ⟨rfl, rfl⟩

/-- C3: the fault category raised while composing the command line is
decided by the exception's type and whether a partial command was
produced: `AttributeError` with a non-`None` command gives
`AppBadFormatting`, `AttributeError` with no command gives
`BashAppNoReturn`, `IndexError` gives `AppBadFormatting`, and every
other exception is re-raised unchanged. -/
theorem compose_exception_dispatch (executable : PyVal) (k : ExcKind) :
    (executable ≠ PyVal.pyNone →
      composeExcHandler executable .attributeError = .appBadFormatting) ∧
    composeExcHandler PyVal.pyNone .attributeError = .bashAppNoReturn ∧
    composeExcHandler executable .indexError = .appBadFormatting ∧
    (k ≠ .attributeError → k ≠ .indexError →
      composeExcHandler executable k = .reraised k) := by
  refine ⟨fun h => by simp [composeExcHandler, h], rfl, rfl, fun h1 h2 => ?_⟩
  cases k <;> simp_all [composeExcHandler]

/-- C3 witness: the dispatch evaluated at a concrete partial command and a
concrete generic exception. -/
theorem compose_exception_dispatch_witness :
    composeExcHandler (PyVal.str "echo") .attributeError = .appBadFormatting ∧
    composeExcHandler PyVal.pyNone .attributeError = .bashAppNoReturn ∧
    composeExcHandler (PyVal.str "echo") .indexError = .appBadFormatting ∧
    composeExcHandler (PyVal.str "echo") .valueError = .reraised .valueError := by
  obtain ⟨h1, h2, h3, h4⟩ := compose_exception_dispatch (PyVal.str "echo") ExcKind.valueError
  exact ⟨h1 (by decide), h2, h3, h4 (by decide) (by decide)⟩

/-- C6: the channel layer defines exactly five failure categories, the
five are pairwise distinct, and each constructor stores the originating
host identifier in `hostname` and the underlying cause in `e`. -/
theorem channel_error_taxonomy :
    (∀ k : ChannelErrorKind, k = .badHostKey ∨ k = .badScriptPath ∨
      k = .badPermsScriptPath ∨ k = .auth ∨ k = .ssh) ∧
    ([ChannelErrorKind.badHostKey, .badScriptPath, .badPermsScriptPath,
      .auth, .ssh] : List ChannelErrorKind).Nodup ∧
    (∀ (e : Cause) (host : String),
      ((BadHostKeyException e host).hostname = host ∧ (BadHostKeyException e host).e = e) ∧
      ((BadScriptPath e host).hostname = host ∧ (BadScriptPath e host).e = e) ∧
      ((BadPermsScriptPath e host).hostname = host ∧ (BadPermsScriptPath e host).e = e) ∧
      ((AuthException e host).hostname = host ∧ (AuthException e host).e = e) ∧
      ((SSHException e host).hostname = host ∧ (SSHException e host).e = e) ∧
      (BadHostKeyException e host).kind = .badHostKey ∧
      (BadScriptPath e host).kind = .badScriptPath ∧
      (BadPermsScriptPath e host).kind = .badPermsScriptPath ∧
      (AuthException e host).kind = .auth ∧
      (SSHException e host).kind = .ssh) := by
  refine ⟨fun k => by cases k <;> simp, by decide, fun e host => ?_⟩
  exact ⟨⟨rfl, rfl⟩, ⟨rfl, rfl⟩, ⟨rfl, rfl⟩, ⟨rfl, rfl⟩, ⟨rfl, rfl⟩,
    rfl, rfl, rfl, rfl, rfl⟩

/-- C7: a call to a `BashApp` returns exactly the future produced by the
kernel's submit operation, and the submission carries the app's `cache`
flag, its `ignore_for_cache` set and its `executors` set. -/
theorem bashApp_call_returns_submit {F : Type} (app : BashApp)
    (submit : Submission → F) (args : List PyVal) (kwargs : KwDict) :
    ∃ s : Submission, BashApp_call app submit args kwargs = submit s ∧
      s.cache = app.cache ∧
      s.ignore_for_cache = app.ignore_for_cache ∧
      s.executors = app.executors ∧
      s.app_args = args ∧
      s.app_kwargs = dictUpdate app.kwargs kwargs :=
  ⟨_, rfl, rfl, rfl, rfl, rfl, rfl⟩

/-- C8: every task record carries the launch lock, the integer
`fail_count` with the `fail_history` list, the `memoize` and `checkpoint`
booleans, the `hashsum` key, the integer `id`, and the
`time_submitted`/`time_returned` timestamps. -/
theorem taskRecord_fields (fn : String) (st : States) (dep : Option (List PyVal))
    (afu : AppFuture) (efu : Option PyFuture) (cb : Unit) (ex : String)
    (fc : Int) (fh : List PyVal) (cp : Bool) (hs : String) (lk : ThreadingLock)
    (f fnh : PyVal) (ar : List PyVal) (kw : KwDict)
    (ts tr' : Option DateTime) (mz : Bool) (i : Int) :
    (TaskRecord.mk fn st dep afu efu cb ex fc fh cp hs lk f fnh ar kw ts tr' mz i).task_launch_lock = lk ∧
    (TaskRecord.mk fn st dep afu efu cb ex fc fh cp hs lk f fnh ar kw ts tr' mz i).fail_count = fc ∧
    (TaskRecord.mk fn st dep afu efu cb ex fc fh cp hs lk f fnh ar kw ts tr' mz i).fail_history = fh ∧
    (TaskRecord.mk fn st dep afu efu cb ex fc fh cp hs lk f fnh ar kw ts tr' mz i).memoize = mz ∧
    (TaskRecord.mk fn st dep afu efu cb ex fc fh cp hs lk f fnh ar kw ts tr' mz i).checkpoint = cp ∧
    (TaskRecord.mk fn st dep afu efu cb ex fc fh cp hs lk f fnh ar kw ts tr' mz i).hashsum = hs ∧
    (TaskRecord.mk fn st dep afu efu cb ex fc fh cp hs lk f fnh ar kw ts tr' mz i).id = i ∧
    (TaskRecord.mk fn st dep afu efu cb ex fc fh cp hs lk f fnh ar kw ts tr' mz i).time_submitted = ts ∧
    (TaskRecord.mk fn st dep afu efu cb ex fc fh cp hs lk f fnh ar kw ts tr' mz i).time_returned = tr' :=
  ⟨rfl, rfl, rfl, rfl, rfl, rfl, rfl, rfl, rfl⟩

/-- C1: when the process exits with code zero but a declared output
artifact is absent on disk, the executor raises `MissingOutputs` listing
exactly the absent artifacts, and does not return successfully. -/
theorem missing_outputs_fault (fn : String) (compose : ComposeOutcome)
    (kwargs : Kwargs) (env : Env) (cmd : String)
    (hc : composeStep compose = .ok cmd)
    (hso : env.stdoutOpenFails = false)
    (hse : env.stderrOpenFails = false)
    (hpr : env.procRaises = false)
    (hto : ∀ t, kwargs.walltime = some t → env.procDuration ≤ t)
    (hrc : env.procReturncode = 0)
    (hmiss : ∃ o, o ∈ kwargs.outputs ∧ o.filepath ∉ env.existingPaths) :
    remote_side_bash_executor fn compose kwargs env =
      .missingOutputs (kwargs.outputs.filter
        (fun o => !(env.existingPaths.contains o.filepath))) ∧
    ∀ rc, remote_side_bash_executor fn compose kwargs env ≠ .ok rc := by
  have key : remote_side_bash_executor fn compose kwargs env =
      .missingOutputs (kwargs.outputs.filter
        (fun o => !(env.existingPaths.contains o.filepath))) := by
    unfold remote_side_bash_executor
    rw [hc]
    rcases hw : kwargs.walltime with _ | t
    · simp [hso, hse, hpr, hw, hrc, hmiss]
    · have hle := Nat.not_lt.mpr (hto t hw)
      simp [hso, hse, hpr, hw, hrc, hmiss, hle]
  refine ⟨key, fun rc h => ?_⟩
  rw [key] at h
  simp at h

/-- C1 witness: a run with exit code zero and one undeclared-on-disk
output artifact ends in `MissingOutputs` naming it. -/
theorem missing_outputs_fault_witness :
    remote_side_bash_executor "app" (.returns (.str "true"))
      { outputs := [⟨"out.txt"⟩] } {} = .missingOutputs [⟨"out.txt"⟩] := by
  have h := missing_outputs_fault "app" (.returns (.str "true"))
    { outputs := [⟨"out.txt"⟩] } {} "true" rfl rfl rfl rfl
    (fun t ht => by simp at ht) rfl ⟨⟨"out.txt"⟩, by simp, by simp⟩
  simpa using h.1

/-- C4: when a walltime keyword is supplied and the process outlasts it,
the executor raises `AppTimeout` carrying exactly that walltime; with no
walltime keyword the executor never raises `AppTimeout`. -/
theorem walltime_is_timeout (fn : String) (compose : ComposeOutcome)
    (kwargs : Kwargs) (env : Env) (cmd : String)
    (hc : composeStep compose = .ok cmd)
    (hso : env.stdoutOpenFails = false)
    (hse : env.stderrOpenFails = false)
    (hpr : env.procRaises = false) :
    (∀ t, kwargs.walltime = some t → t < env.procDuration →
      remote_side_bash_executor fn compose kwargs env = .appTimeout (some t)) ∧
    (kwargs.walltime = none →
      ∀ w, remote_side_bash_executor fn compose kwargs env ≠ .appTimeout w) := by
  constructor
  · intro t hw hlt
    unfold remote_side_bash_executor
    rw [hc]
    simp [hso, hse, hpr, hw, hlt]
  · intro hw w h
    unfold remote_side_bash_executor at h
    rw [hc] at h
    simp only [hso, hse, hpr, hw, Bool.false_eq_true, if_false] at h
    split at h
    · simp_all
    · split at h <;> simp_all

/-- C4 witness: walltime one second, process running for three, gives
`AppTimeout` carrying the walltime of one second. -/
theorem walltime_is_timeout_witness :
    remote_side_bash_executor "app" (.returns (.str "sleep 3"))
      { walltime := some 1 } { procDuration := 3 } = .appTimeout (some 1) :=
  (walltime_is_timeout "app" (.returns (.str "sleep 3"))
    { walltime := some 1 } { procDuration := 3 } "sleep 3"
    rfl rfl rfl rfl).1 1 rfl (by decide)

/-- C5: a command line that runs to completion with a non-zero exit code
makes the executor raise `BashExitFailure` carrying the callable's name
and the return code; the executor never returns normally then. -/
theorem nonzero_exit_failure (fn : String) (compose : ComposeOutcome)
    (kwargs : Kwargs) (env : Env) (cmd : String)
    (hc : composeStep compose = .ok cmd)
    (hso : env.stdoutOpenFails = false)
    (hse : env.stderrOpenFails = false)
    (hpr : env.procRaises = false)
    (hto : ∀ t, kwargs.walltime = some t → env.procDuration ≤ t)
    (hrc : env.procReturncode ≠ 0) :
    remote_side_bash_executor fn compose kwargs env =
      .bashExitFailure fn env.procReturncode ∧
    ∀ rc, remote_side_bash_executor fn compose kwargs env ≠ .ok rc := by
  have key : remote_side_bash_executor fn compose kwargs env =
      .bashExitFailure fn env.procReturncode := by
    unfold remote_side_bash_executor
    rw [hc]
    rcases hw : kwargs.walltime with _ | t
    · simp [hso, hse, hpr, hw, hrc]
    · have hle := Nat.not_lt.mpr (hto t hw)
      simp [hso, hse, hpr, hw, hrc, hle]
  refine ⟨key, fun rc h => ?_⟩
  rw [key] at h
  simp at h

/-- C5 witness: a process exiting with code 1 gives `BashExitFailure`
carrying the app name and 1. -/
theorem nonzero_exit_failure_witness :
    remote_side_bash_executor "app" (.returns (.str "false")) {}
      { procReturncode := 1 } = .bashExitFailure "app" 1 :=
  (nonzero_exit_failure "app" (.returns (.str "false")) {}
    { procReturncode := 1 } "false" rfl rfl rfl rfl
    (fun t ht => by simp at ht) (by decide)).1

/-- C10: whenever the executor returns normally, the value returned is the
launched process's exit code, and it is necessarily zero. -/
theorem normal_return_is_zero (fn : String) (compose : ComposeOutcome)
    (kwargs : Kwargs) (env : Env) (rc : Int)
    (h : remote_side_bash_executor fn compose kwargs env = .ok rc) :
    rc = env.procReturncode ∧ rc = 0 := by
  rcases compose with v | k
  · rcases v with s | _ | tag
    · simp only [remote_side_bash_executor, composeStep] at h
      iterate 6 (all_goals try split at h)
      all_goals simp_all
    · simp [remote_side_bash_executor, composeStep, composeExcHandler] at h
    · simp [remote_side_bash_executor, composeStep, composeExcHandler] at h
  · cases k <;> simp [remote_side_bash_executor, composeStep, composeExcHandler] at h

/-- C10 witness: a successful run of a trivially succeeding command
returns zero, the process's exit code. -/
theorem normal_return_is_zero_witness :
    (0 : Int) = ({} : Env).procReturncode ∧ (0 : Int) = 0 :=
  normal_return_is_zero "app" (.returns (.str "true")) {} {} 0 rfl

/-- C9: the kwargs forwarded to the engine are the declared parameter
defaults overridden by the call-time kwargs: a call-time value always
wins, and an unoverridden default is still supplied. -/
theorem invocation_kwargs_precedence (fn : String) (sig : Signature)
    (cache : Bool) (executors : PyVal) (ifc : Option (List String))
    (args : List PyVal) (kwargs : KwDict) :
    (∀ name v, dictGet kwargs name = some v →
      dictGet ((BashApp_call (BashApp_init fn sig cache executors ifc)
        (fun s => s) args kwargs).app_kwargs) name = some v) ∧
    (∀ name v, dictGet kwargs name = none →
      dictGet (paramDefaults sig) name = some v →
      dictGet ((BashApp_call (BashApp_init fn sig cache executors ifc)
        (fun s => s) args kwargs).app_kwargs) name = some v) := by
  have happ : (BashApp_call (BashApp_init fn sig cache executors ifc)
      (fun s => s) args kwargs).app_kwargs = dictUpdate (paramDefaults sig) kwargs := rfl
  constructor
  · intro name v h
    rw [happ]
    exact dictGet_dictUpdate_right _ _ _ _ h
  · intro name v h hd
    rw [happ, dictGet_dictUpdate_left _ _ _ h]
    exact hd

/-- C9 witness: default `y = "b"` is overridden by call-time `y = "c"`,
while unoverridden default `x = "a"` is still forwarded. -/
theorem invocation_kwargs_precedence_witness :
    dictGet ((BashApp_call (BashApp_init "app"
      [⟨"x", some (PyVal.str "a")⟩, ⟨"y", some (PyVal.str "b")⟩]
      false (PyVal.str "all") none)
      (fun s => s) [] [("y", PyVal.str "c")]).app_kwargs) "y" = some (PyVal.str "c") ∧
    dictGet ((BashApp_call (BashApp_init "app"
      [⟨"x", some (PyVal.str "a")⟩, ⟨"y", some (PyVal.str "b")⟩]
      false (PyVal.str "all") none)
      (fun s => s) [] [("y", PyVal.str "c")]).app_kwargs) "x" = some (PyVal.str "a") := by
  obtain ⟨h1, h2⟩ := invocation_kwargs_precedence "app"
    [⟨"x", some (PyVal.str "a")⟩, ⟨"y", some (PyVal.str "b")⟩]
    false (PyVal.str "all") none [] [("y", PyVal.str "c")]
  exact ⟨h1 "y" _ (by decide), h2 "x" _ (by decide) (by decide)⟩

end Parsl
